import Mathlib

/-
Verification of the bash-tool core: sandbox adapter, capability-driven
prompt composition, and the command-execution pipeline.

The repository ships the dispatch logic (createBashTool in tool.ts) and the
just-bash wrapper (sandbox/just-bash.ts) together with the test suites; the
remaining modules (tools/bash.ts, sandbox/vercel.ts, tools-prompt.ts,
tools/read-file.ts, tools/write-file.ts) are absent, so those parts are
modelled from the specification, with literal section text taken from the
snapshot expectations in the test suites.
-/

namespace BashTool

/-- Result of one command execution: stdout, stderr and the exit code,
as produced by every backend (types.ts, CommandResult). -/
structure CommandResult where
  stdout : String
  stderr : String
  exitCode : Int
  deriving Repr, DecidableEq

/-- Modelled from the spec: the output-truncation step of the execution
pipeline (tools/bash.ts is absent from the sources). Given an output string,
a stream label (stdout or stderr) and the configured maximum length, output
not longer than the maximum is returned unchanged; strictly longer output is
cut to its first max characters and a literal marker naming the stream and
the number of removed characters is appended. -/
def truncateOutput (s : String) (label : String) (max : Nat) : String :=
  if max < s.length then
    s.take max ++ "\n\n[" ++ label ++ " truncated: " ++
      toString (s.length - max) ++ " characters removed]"
  else s

/-- Modelled from the spec: truncation applied to a CommandResult, stdout and
stderr independently with the same threshold; the exit code is untouched. -/
def truncateResult (r : CommandResult) (max : Nat) : CommandResult :=
  ⟨truncateOutput r.stdout "stdout" max, truncateOutput r.stderr "stderr" max, r.exitCode⟩

/-- Modelled from the spec: the per-invocation execution pipeline of the bash
tool (tools/bash.ts is absent from the sources). The before-hook receives the
original command and may return a replacement command; the (possibly
replaced) command is sent to the backend; the raw result is truncated; the
after-hook receives the replaced command and the truncated result and may
return a replacement result, which is returned as-is; otherwise the
truncated result is returned. -/
def runBash (backend : String → CommandResult)
    (onBefore : String → Option String)
    (onAfter : String → CommandResult → Option CommandResult)
    (max : Nat) (cmd : String) : CommandResult :=
  let cmd2 := (onBefore cmd).getD cmd
  let tr := truncateResult (backend cmd2) max
  (onAfter cmd2 tr).getD tr

/-- Fixed first line of the generated description (snapshot text from the
test suites). -/
def promptPreamble : String :=
  "Execute bash commands in the sandbox environment."

/-- Working-directory section of the generated description. -/
def wdSection (cwd : String) : String :=
  "WORKING DIRECTORY: " ++ cwd ++
    "\nAll commands execute from this directory. Use relative paths from here."

/-- Fixed Common operations block, always present. -/
def commonOps : String :=
  "Common operations:\n  ls -la              # List files with details\n  find . -name \x27*.ts\x27 # Find files by pattern\n  grep -r \x27pattern\x27 . # Search file contents\n  cat <file>          # View file contents"

/-- Modelled from the spec: the Available files section of the generated
description (tools/bash.ts is absent from the sources). Omitted for an empty
manifest; otherwise each path is listed on its own indented line in manifest
order, except that a manifest of more than 8 entries lists only the first 8
followed by a literal more-files line. -/
def filesSection (files : List String) : Option String :=
  match files with
  | [] => none
  | _ =>
    some ("Available files:\n" ++
      String.intercalate "\n" ((files.take 8).map (fun f => "  " ++ f)) ++
      (if 8 < files.length then
        "\n  ... and " ++ toString (files.length - 8) ++ " more files"
      else ""))

/-- Modelled from the spec: static per-format tool classification used for
the format hint lines (tools-prompt.ts is absent from the sources); the
entries are the ones the snapshot tests pin down. -/
def toolsForFormat : String → List String
  | "JSON" => ["jq", "grep", "sed"]
  | "YAML" => ["yq", "grep", "sed"]
  | "CSV/TSV" => ["yq", "awk", "cut"]
  | _ => []

/-- Format hint line of the auto-generated tools section. -/
def formatLine (fmt : String) : String :=
  "For " ++ fmt ++ ": " ++ String.intercalate ", " (toolsForFormat fmt)

/-- Modelled from the spec: the auto-generated tools section
(tools-prompt.ts is absent from the sources): an Available tools line
listing the discovered tools (already sorted), optionally suffixed with an
and-more entry, followed by one format hint line per detected file format. -/
def autoToolsSection (tools : List String) (andMore : Bool) (formats : List String) : String :=
  "Available tools: " ++
    String.intercalate ", " (tools ++ (if andMore then ["and more"] else [])) ++
    String.join (formats.map (fun f => "\n" ++ formatLine f))

/-- Modelled from the spec: resolution of the three-way toolPrompt override
(createToolPrompt in tools-prompt.ts is absent from the sources): an absent
override yields the auto-generated section, a supplied string (empty or not)
is used verbatim. -/
def toolsSectionOf (auto : String) (override : Option String) : String :=
  match override with
  | some s => s
  | none => auto

/-- Extra-instructions section: appended verbatim if and only if non-empty. -/
def extraSectionList (extra : Option String) : List String :=
  match extra with
  | some e => if e = "" then [] else [e]
  | none => []

/-- Modelled from the spec: the ordered list of sections of the generated
description; a section resolving to nothing is dropped entirely, leaving no
blank placeholder. -/
def sectionsOf (cwd : String) (files : List String) (tools : List String)
    (andMore : Bool) (formats : List String)
    (toolPrompt : Option String) (extra : Option String) : List String :=
  [promptPreamble, wdSection cwd]
    ++ (filesSection files).toList
    ++ (let t := toolsSectionOf (autoToolsSection tools andMore formats) toolPrompt
        if t = "" then [] else [t])
    ++ [commonOps]
    ++ extraSectionList extra

/-- Modelled from the spec: the generated description string, sections joined
by exactly one blank line. -/
def describeBash (cwd : String) (files : List String) (tools : List String)
    (andMore : Bool) (formats : List String)
    (toolPrompt : Option String) (extra : Option String) : String :=
  String.intercalate "\n\n" (sectionsOf cwd files tools andMore formats toolPrompt extra)

/-- A property slot on a duck-typed candidate object: absent, a string value,
a function value, or some other value. -/
inductive JSField
  | absent
  | str (s : String)
  | fn
  | other
  deriving Repr, DecidableEq

/-- The properties the two shape detectors inspect on a candidate object:
the sandboxId field, the runCommand, readFile and writeFiles members tested
by the remote-sandbox check, and the exec member tested by the
virtual-shell check. -/
structure JSObj where
  sandboxId : JSField
  runCommand : JSField
  readFileF : JSField
  writeFilesF : JSField
  execF : JSField
  deriving Repr, DecidableEq

/-- A candidate value handed to the detectors: null or undefined, a
non-object primitive, or an object with the inspected properties. -/
inductive Candidate
  | nullish
  | prim
  | obj (o : JSObj)
  deriving Repr, DecidableEq

/-- Typeof-string test on a property slot. -/
def isStringField : JSField → Bool
  | .str _ => true
  | _ => false

/-- Typeof-function test on a property slot. -/
def isFuncField : JSField → Bool
  | .fn => true
  | _ => false

/-- Modelled from the spec: the remote-sandbox shape detector
(isVercelSandbox in sandbox/vercel.ts is absent from the sources). It
rejects null, undefined and non-objects, and matches exactly when all four
structural markers are present: a string sandboxId, and runCommand,
readFile and writeFiles functions. -/
def isVercelSandbox : Candidate → Bool
  | .nullish => false
  | .prim => false
  | .obj o =>
    isStringField o.sandboxId && isFuncField o.runCommand &&
      isFuncField o.readFileF && isFuncField o.writeFilesF

/-- Virtual-shell shape detector, from isJustBash in sandbox/just-bash.ts:
rejects null, undefined and non-objects, and matches exactly when the
candidate has an exec function. -/
def isJustBash : Candidate → Bool
  | .obj o => isFuncField o.execF
  | _ => false

/-- The three backend kinds the dispatch in tool.ts distinguishes. -/
inductive BackendKind
  | remoteSandbox
  | virtualShell
  | passthrough
  deriving Repr, DecidableEq

/-- Backend dispatch from createBashTool in tool.ts: the remote-sandbox
check runs first, then the virtual-shell check, and anything else is
accepted as an already-conformant custom backend. -/
def detectBackend (c : Candidate) : BackendKind :=
  if isVercelSandbox c then BackendKind.remoteSandbox
  else if isJustBash c then BackendKind.virtualShell
  else BackendKind.passthrough

/-- Outcome of invoking a wrapped method at runtime: a value, an error
rejection carrying a message, or a TypeError raised by accessing a member
of an undefined property. -/
inductive JsOutcome (α : Type)
  | ok (a : α)
  | err (msg : String)
  | typeError
  deriving Repr, DecidableEq

/-- The file-system accessor a just-bash instance may expose. -/
structure JustBashFs where
  read : String → Except String String

/-- A virtual-shell backend as wrapJustBash receives it: an exec primitive
and an fs accessor that a bare backend (as in the wrapper test suite) does
not have. -/
structure JustBashInstance where
  exec : String → CommandResult
  fs : Option JustBashFs

/-- The readFile of the wrapper returned by wrapJustBash in
sandbox/just-bash.ts: it returns bashInstance.fs.readFile(filePath)
unconditionally, so on a backend without an fs accessor the member access
raises a TypeError. -/
def wrapJustBash_readFile (b : JustBashInstance) (path : String) : JsOutcome String :=
  match b.fs with
  | some f =>
    match f.read path with
    | .ok c => .ok c
    | .error e => .err e
  | none => .typeError

/-- The writeFile of the wrapper returned by wrapJustBash in
sandbox/just-bash.ts, paired with the list of shell commands it sends to the
exec primitive: it calls bashInstance.fs.writeFile(filePath, content) and
issues no exec command at all; on a backend without an fs accessor the
member access raises a TypeError. -/
def wrapJustBash_writeFile (b : JustBashInstance) (_path _content : String) :
    JsOutcome Unit × List String :=
  match b.fs with
  | some _ => (.ok (), [])
  | none => (.typeError, [])

/-- Splitting of a character list on a separator character. -/
def splitOnChar (sep : Char) : List Char → List (List Char)
  | [] => [[]]
  | c :: cs =>
    let r := splitOnChar sep cs
    if c = sep then [] :: r
    else
      match r with
      | [] => [[c]]
      | h :: t => (c :: h) :: t

/-- Parent directory of a posix path: everything before the final slash. -/
def parentDir (p : String) : String :=
  String.intercalate "/" (((splitOnChar '/' p.data).map String.mk).dropLast)

/-- Modelled from the spec: the readFile the specification prescribes for a
virtual-shell backend exposing only a bare command-execution primitive: the
read becomes a cat of the path, and a non-zero exit fails with a read error
including the path and the captured stderr. -/
def specJustBash_readFile (b : JustBashInstance) (path : String) : JsOutcome String :=
  let r := b.exec ("cat " ++ path)
  if r.exitCode = 0 then .ok r.stdout
  else .err ("Failed to read file " ++ path ++ ": " ++ r.stderr)

/-- Modelled from the spec: the two sequential shell commands the
specification prescribes for a write on a bare virtual-shell backend: an
idempotent ensure-parent-directory command, then a heredoc write using a
sentinel delimiter. -/
def specJustBash_writeCommands (path content : String) : List String :=
  ["mkdir -p " ++ parentDir path,
   "cat > " ++ path ++ " << \x27BASH_TOOL_EOF\x27\n" ++ content ++ "\nBASH_TOOL_EOF"]

/-- Posix join of the destination directory and a relative manifest path, as
path.posix.join is used in createBashTool in tool.ts. -/
def pathJoin (dest rel : String) : String :=
  dest ++ "/" ++ rel

/-- Outcome of the initial file-materialization step of toolkit
construction: the batch of (absolute path, content) pairs written, or a
TypeError. -/
inductive InitialWriteOutcome
  | ok (batch : List (String × String))
  | typeError
  deriving Repr, DecidableEq

/-- Initial file materialization for a caller-supplied backend, from
createBashTool in tool.ts: the manifest paths are prefixed with the
destination, and when the manifest is non-empty the code invokes
sandbox.writeFiles on the whole batch unconditionally; on a backend that
does not provide the optional writeFiles method that call raises a
TypeError, and no file is written. -/
def writeInitialFiles (hasWriteFiles : Bool) (dest : String)
    (files : List (String × String)) : InitialWriteOutcome :=
  let batch := files.map (fun pc => (pathJoin dest pc.1, pc.2))
  if batch.isEmpty then .ok []
  else if hasWriteFiles then .ok batch
  else .typeError

/-- The auto-generated tools section is never the empty string: it always
begins with the Available tools header. -/
theorem autoToolsSection_ne_empty (tools : List String) (andMore : Bool)
    (formats : List String) : autoToolsSection tools andMore formats ≠ "" := by
  intro h
  have hd := congrArg String.data h
  simp only [autoToolsSection, String.data_append] at hd
  simp at hd

/-- C1: for every output string s and configured maximum, output of length
at most the maximum is returned unchanged with no marker; strictly longer
output is cut to its first max characters followed by the literal
stream-naming marker reporting exactly length minus max removed characters;
and the pipeline truncates stdout and stderr independently with the same
threshold, leaving the exit code unchanged. -/
theorem c1_truncation (s label : String) (max : Nat) :
    (s.length ≤ max → truncateOutput s label max = s) ∧
    (max < s.length → truncateOutput s label max =
      s.take max ++ "\n\n[" ++ label ++ " truncated: " ++
        toString (s.length - max) ++ " characters removed]") ∧
    (∀ r : CommandResult,
      (truncateResult r max).stdout = truncateOutput r.stdout "stdout" max ∧
      (truncateResult r max).stderr = truncateOutput r.stderr "stderr" max ∧
      (truncateResult r max).exitCode = r.exitCode) := by
  refine ⟨fun h => ?_, fun h => ?_, fun r => ⟨rfl, rfl, rfl⟩⟩
  · simp [truncateOutput, Nat.not_lt.mpr h]
  · simp [truncateOutput, h]

/-- A 150-character run of the letter x, as in the truncation tests. -/
def xRun150 : String := String.mk (List.replicate 150 'x')

set_option maxRecDepth 4000 in
/-- Witness for C1: an 11-character output passes a 100-character limit
unchanged, and a 150-character output at limit 100 is cut to 100 characters
with a 50-characters-removed marker. -/
theorem c1_truncation_witness :
    (("hello world").length ≤ 100 ∧
      truncateOutput "hello world" "stdout" 100 = "hello world") ∧
    (100 < xRun150.length ∧
      truncateOutput xRun150 "stdout" 100 =
        xRun150.take 100 ++ "\n\n[" ++ "stdout" ++ " truncated: " ++
          toString (xRun150.length - 100) ++ " characters removed]") :=
  ⟨⟨by decide, (c1_truncation "hello world" "stdout" 100).1 (by decide)⟩,
   ⟨by decide, (c1_truncation xRun150 "stdout" 100).2.1 (by decide)⟩⟩

/-- C2: any candidate that structurally matches both the remote-sandbox
shape and the virtual-shell shape is resolved to the remote-sandbox kind by
the dispatch, which runs the remote-sandbox check first. -/
theorem c2_detection_priority (c : Candidate)
    (h1 : isVercelSandbox c = true) (_h2 : isJustBash c = true) :
    detectBackend c = BackendKind.remoteSandbox := by
  simp [detectBackend, h1]

/-- Candidate exposing sandboxId, runCommand, readFile and writeFiles and
also an exec method, as in end-to-end scenario 4. -/
def ambiguousCandidate : Candidate :=
  Candidate.obj ⟨JSField.str "sbx-123", JSField.fn, JSField.fn, JSField.fn, JSField.fn⟩

/-- Witness for C2: the scenario-4 candidate matches both shapes and the
dispatch resolves it to the remote-sandbox kind. -/
theorem c2_detection_priority_witness :
    isVercelSandbox ambiguousCandidate = true ∧
    isJustBash ambiguousCandidate = true ∧
    detectBackend ambiguousCandidate = BackendKind.remoteSandbox :=
  ⟨rfl, rfl, c2_detection_priority ambiguousCandidate rfl rfl⟩

/-- C3: with the manifest, discovered tools and destination fixed, an absent
toolPrompt renders the auto-generated tools section, the empty-string
toolPrompt removes the tools section entirely with no blank placeholder, and
a non-empty toolPrompt is rendered verbatim in its place, all other sections
unchanged. -/
theorem c3_toolPrompt_tri_state (cwd : String) (files tools : List String)
    (andMore : Bool) (formats : List String) (extra : Option String) :
    (describeBash cwd files tools andMore formats none extra =
      String.intercalate "\n\n"
        ([promptPreamble, wdSection cwd] ++ (filesSection files).toList ++
          [autoToolsSection tools andMore formats] ++ [commonOps] ++
          extraSectionList extra)) ∧
    (describeBash cwd files tools andMore formats (some "") extra =
      String.intercalate "\n\n"
        ([promptPreamble, wdSection cwd] ++ (filesSection files).toList ++
          [commonOps] ++ extraSectionList extra)) ∧
    (∀ s : String, s ≠ "" →
      describeBash cwd files tools andMore formats (some s) extra =
        String.intercalate "\n\n"
          ([promptPreamble, wdSection cwd] ++ (filesSection files).toList ++
            [s] ++ [commonOps] ++ extraSectionList extra)) := by
  refine ⟨?_, ?_, fun s hs => ?_⟩
  · simp [describeBash, sectionsOf, toolsSectionOf,
      autoToolsSection_ne_empty tools andMore formats]
  · simp [describeBash, sectionsOf, toolsSectionOf]
  · simp [describeBash, sectionsOf, toolsSectionOf, hs]

/-- The sorted tool list the default discovery probe produces in the tests. -/
def demoTools : List String :=
  ["awk", "cat", "cut", "grep", "head", "jq", "sed", "sort", "tail", "yq"]

/-- Witness for C3: a non-empty custom toolPrompt is rendered verbatim in
place of the tools section for the manifest of the custom-toolPrompt test. -/
theorem c3_toolPrompt_tri_state_witness :
    describeBash "/workspace" ["data.json"] demoTools true ["JSON"]
        (some "Custom tools: myTool, otherTool") none =
      String.intercalate "\n\n"
        ([promptPreamble, wdSection "/workspace"] ++
          (filesSection ["data.json"]).toList ++
          ["Custom tools: myTool, otherTool"] ++ [commonOps] ++
          extraSectionList none) :=
  (c3_toolPrompt_tri_state "/workspace" ["data.json"] demoTools true ["JSON"]
    none).2.2 "Custom tools: myTool, otherTool" (by decide)

/-- C4: the Available files section is omitted for an empty manifest; a
non-empty manifest of at most 8 entries lists every path on its own line in
manifest order; a manifest of more than 8 entries lists exactly the first 8
paths followed by the literal more-files line reporting exactly length
minus 8 remaining files. -/
theorem c4_files_section (files : List String) :
    (files = [] → filesSection files = none) ∧
    (files ≠ [] → files.length ≤ 8 → filesSection files =
      some ("Available files:\n" ++
        String.intercalate "\n" (files.map (fun f => "  " ++ f)))) ∧
    (8 < files.length → filesSection files =
      some ("Available files:\n" ++
        String.intercalate "\n" ((files.take 8).map (fun f => "  " ++ f)) ++
        "\n  ... and " ++ toString (files.length - 8) ++ " more files")) := by
  refine ⟨fun h => by simp [h, filesSection], fun hne hle => ?_, fun hgt => ?_⟩
  · cases files with
    | nil => exact absurd rfl hne
    | cons f fs =>
      simp only [filesSection]
      rw [List.take_of_length_le hle, if_neg (Nat.not_lt.mpr hle)]
      simp
  · cases files with
    | nil => simp at hgt
    | cons f fs =>
      simp only [filesSection]
      rw [if_pos hgt]
      simp [String.append_assoc]

/-- The eleven-entry manifest of the more-than-8 snapshot test. -/
def elevenFiles : List String :=
  ["src/index.ts", "src/utils.ts", "src/types.ts", "src/config.ts",
   "src/api.ts", "src/db.ts", "src/auth.ts", "src/routes.ts",
   "src/middleware.ts", "src/helpers.ts", "package.json"]

/-- Witness for C4: the eleven-entry manifest lists its first 8 paths and a
literal 3-more-files line. -/
theorem c4_files_section_witness :
    8 < elevenFiles.length ∧ filesSection elevenFiles =
      some ("Available files:\n" ++
        String.intercalate "\n" ((elevenFiles.take 8).map (fun f => "  " ++ f)) ++
        "\n  ... and " ++ toString (elevenFiles.length - 8) ++ " more files") :=
  ⟨by decide, (c4_files_section elevenFiles).2.2 (by decide)⟩

/-- C5: when the before-hook rewrites the command, the pipeline behaves
exactly as the pipeline with no before-hook run on the rewritten command, so
the backend and the after-hook both observe the rewritten command and never
the original; when the before-hook returns nothing, the original command is
used unchanged. -/
theorem c5_before_hook (backend : String → CommandResult)
    (onBefore : String → Option String)
    (onAfter : String → CommandResult → Option CommandResult)
    (max : Nat) (cmd : String) :
    (∀ c, onBefore cmd = some c →
      runBash backend onBefore onAfter max cmd =
        runBash backend (fun _ => none) onAfter max c) ∧
    (onBefore cmd = none →
      runBash backend onBefore onAfter max cmd =
        runBash backend (fun _ => none) onAfter max cmd) := by
  constructor
  · intro c h
    simp [runBash, h]
  · intro h
    simp [runBash, h]

/-- Backend echoing the command into stdout, used by the hook witnesses. -/
def echoBackend : String → CommandResult := fun c => ⟨c, "", 0⟩

/-- Before-hook rewriting ls to pwd, as in end-to-end scenario 3. -/
def rewriteLsToPwd : String → Option String :=
  fun c => if c = "ls" then some "pwd" else none

/-- After-hook returning no replacement. -/
def noAfterHook : String → CommandResult → Option CommandResult := fun _ _ => none

/-- Witness for C5: the hook rewrites ls to pwd and the pipeline behaves as
the hook-free pipeline run on pwd. -/
theorem c5_before_hook_witness :
    rewriteLsToPwd "ls" = some "pwd" ∧
    runBash echoBackend rewriteLsToPwd noAfterHook 100 "ls" =
      runBash echoBackend (fun _ => none) noAfterHook 100 "pwd" :=
  ⟨rfl, (c5_before_hook echoBackend rewriteLsToPwd noAfterHook 100 "ls").1 "pwd" rfl⟩

/-- C6: the after-hook is applied to the already-truncated result, and a
replacement result it returns is returned to the caller exactly as supplied
with no re-truncation; when it returns nothing the truncated result is
returned. -/
theorem c6_after_hook (backend : String → CommandResult)
    (onBefore : String → Option String)
    (onAfter : String → CommandResult → Option CommandResult)
    (max : Nat) (cmd : String) :
    (∀ r, onAfter ((onBefore cmd).getD cmd)
        (truncateResult (backend ((onBefore cmd).getD cmd)) max) = some r →
      runBash backend onBefore onAfter max cmd = r) ∧
    (onAfter ((onBefore cmd).getD cmd)
        (truncateResult (backend ((onBefore cmd).getD cmd)) max) = none →
      runBash backend onBefore onAfter max cmd =
        truncateResult (backend ((onBefore cmd).getD cmd)) max) := by
  constructor
  · intro r h
    simp [runBash, h]
  · intro h
    simp [runBash, h]

/-- After-hook substituting a fixed oversized result. -/
def oversizedAfterHook : String → CommandResult → Option CommandResult :=
  fun _ _ => some ⟨"yyyyyyy", "", 42⟩

/-- Backend producing three characters of stdout. -/
def xxxBackend : String → CommandResult := fun _ => ⟨"xxx", "", 0⟩

/-- Witness for C6: with limit 1 the after-hook replacement is returned
exactly as supplied even though its stdout exceeds the limit. -/
theorem c6_after_hook_witness :
    oversizedAfterHook "echo test" (truncateResult (xxxBackend "echo test") 1) =
      some ⟨"yyyyyyy", "", 42⟩ ∧
    runBash xxxBackend (fun _ => none) oversizedAfterHook 1 "echo test" =
      ⟨"yyyyyyy", "", 42⟩ ∧
    1 < ("yyyyyyy" : String).length :=
  ⟨rfl,
   (c6_after_hook xxxBackend (fun _ => none) oversizedAfterHook 1 "echo test").1
     ⟨"yyyyyyy", "", 42⟩ rfl,
   by decide⟩

/-- A virtual-shell backend exposing only a bare exec primitive and no fs
accessor, whose exec fails every command with a No-such-file stderr, as in
the failing-read wrapper test. -/
def bareExecBackend : JustBashInstance :=
  ⟨fun _ => ⟨"", "No such file", 1⟩, none⟩

/-- C7 (code bug): on a backend exposing only a bare exec primitive, the
shipped wrapJustBash raises a TypeError on readFile and on writeFile and
issues no shell command at all, whereas the specified behavior, modelled
here, synthesizes a cat read failing with a message naming the path and the
captured stderr, and a write of two sequential commands: mkdir -p of the
parent directory then a heredoc write with the sentinel delimiter. -/
theorem c7_justbash_fallback_bug :
    wrapJustBash_readFile bareExecBackend "/missing.txt" = JsOutcome.typeError ∧
    specJustBash_readFile bareExecBackend "/missing.txt" =
      JsOutcome.err "Failed to read file /missing.txt: No such file" ∧
    wrapJustBash_writeFile bareExecBackend "/dir/test.txt" "content" =
      (JsOutcome.typeError, []) ∧
    specJustBash_writeCommands "/dir/test.txt" "content" =
      ["mkdir -p /dir",
       "cat > /dir/test.txt << \x27BASH_TOOL_EOF\x27\ncontent\nBASH_TOOL_EOF"] := by
  refine ⟨rfl, ?_, rfl, by decide⟩
  simp [specJustBash_readFile, bareExecBackend]

/-- C8 (code bug): toolkit construction with a caller-supplied backend that
lacks the optional writeFiles method and a non-empty files map raises a
TypeError and materializes nothing, because createBashTool invokes
sandbox.writeFiles unconditionally; with writeFiles present the same batch
is written under the destination. -/
theorem c8_writeFiles_required_bug :
    writeInitialFiles false "/workspace" [("test.txt", "content")] =
      InitialWriteOutcome.typeError ∧
    writeInitialFiles true "/workspace" [("test.txt", "content")] =
      InitialWriteOutcome.ok [("/workspace/test.txt", "content")] := by
  constructor
  · rfl
  · simp [writeInitialFiles, pathJoin]

/-- C9: the remote-sandbox detector returns false on null, undefined and
non-object candidates, and on an object it matches exactly when all four
structural markers are present: a string sandboxId and runCommand, readFile
and writeFiles functions; an object missing any of the four is rejected. -/
theorem c9_vercel_detector :
    isVercelSandbox Candidate.nullish = false ∧
    isVercelSandbox Candidate.prim = false ∧
    (∀ o : JSObj, isVercelSandbox (Candidate.obj o) = true ↔
      (isStringField o.sandboxId = true ∧ isFuncField o.runCommand = true ∧
        isFuncField o.readFileF = true ∧ isFuncField o.writeFilesF = true)) := by
  refine ⟨rfl, rfl, fun o => ?_⟩
  simp [isVercelSandbox, Bool.and_eq_true, and_assoc]

/-- Witness for C9: the full mock remote-sandbox shape is matched, and the
partial object having only sandboxId and runCommand is rejected. -/
theorem c9_vercel_detector_witness :
    isVercelSandbox (Candidate.obj
      ⟨JSField.str "sbx-123", JSField.fn, JSField.fn, JSField.fn, JSField.absent⟩) = true ∧
    ¬ isVercelSandbox (Candidate.obj
      ⟨JSField.str "123", JSField.fn, JSField.absent, JSField.absent, JSField.absent⟩) = true :=
  ⟨((c9_vercel_detector).2.2 _).mpr ⟨rfl, rfl, rfl, rfl⟩,
   fun h => by
    have := ((c9_vercel_detector).2.2 _).mp h
    exact absurd this.2.2.1 (by decide)⟩

end BashTool
